import Mathlib

/-!
Verification development for the 360-Panorama-Viewer-OpenGL repository.

The C++ sources are shallowly embedded over exact rational arithmetic:
`float` values become `ℚ`, `glm` scalar helpers (`clamp`, `mod`, `mix`)
are given their documented exact semantics, `std::vector` indexing is
modelled through `List` lookups returning `Option` (out-of-bounds access
is C++ undefined behaviour, hence `none`), and the quaternion spherical
interpolation `glm::slerp` — an external-library transcendental routine —
is kept as an explicit function parameter.
-/

namespace PanoViewer

/-- 3-component vector, embedding `glm::vec3`. -/
structure Vec3 where
  x : ℚ
  y : ℚ
  z : ℚ
deriving DecidableEq

/-- Quaternion representation, embedding `glm::quat` (components only;
orientation semantics live in the external library). -/
structure Quat where
  w : ℚ
  x : ℚ
  y : ℚ
  z : ℚ
deriving DecidableEq

/-- `glm::clamp(x, lo, hi) = min(max(x, lo), hi)`. -/
def glmClamp (v lo hi : ℚ) : ℚ := min (max v lo) hi

/-- `glm::mod(x, y) = x - y * floor(x / y)`. -/
def glmMod (x y : ℚ) : ℚ := x - y * (Int.floor (x / y) : ℚ)

/-- `glm::mix(a, b, t) = a * (1 - t) + b * t` (scalar linear interpolation). -/
def glmMix (a b t : ℚ) : ℚ := a * (1 - t) + b * t

/-- Componentwise `glm::mix` on `glm::vec3`. -/
def mixVec3 (a b : Vec3) (t : ℚ) : Vec3 :=
  ⟨glmMix a.x b.x t, glmMix a.y b.y t, glmMix a.z b.z t⟩

/-- Componentwise linear interpolation of quaternions (`glm`'s `lerp`
fallback); used to instantiate the abstract `slerp` parameter in witnesses. -/
def lerpQuat (a b : Quat) (t : ℚ) : Quat :=
  ⟨glmMix a.w b.w t, glmMix a.x b.x t, glmMix a.y b.y t, glmMix a.z b.z t⟩

/-- `std::numeric_limits<float>::epsilon() = 2⁻²³`, as an exact rational. -/
def flEps : ℚ := 1 / 2 ^ 23

/-- `PanoramaRenderer::hasDivisibleNode` (main.cpp lines 360-373): after
swapping the two pitches into order, tests whether the first value of the
form `90 + 180k` at or above `lowerBound = min + ε` lies strictly inside
`(lowerBound, upperBound)` with `upperBound = max - ε`. -/
def hasDivisibleNode (previousPitch pitch : ℚ) : Bool :=
  let lo := min previousPitch pitch
  let hi := max previousPitch pitch
  let lowerBound := lo + flEps
  let upperBound := hi - flEps
  let start : ℚ := 90 + (Int.ceil ((lowerBound - 90) / 180) : ℚ) * 180
  decide (start > lowerBound ∧ start < upperBound)

/-- `struct AnimationEffect` (PanoramaRenderer.h lines 887-938): N camera
position keyframes, N orientation keyframes, N fov keyframes and N-1 stage
durations. -/
structure AnimationEffect where
  CameraPosNodes : List Vec3
  CameraRotNodes : List Quat
  FovNodes : List ℚ
  stagesDuration : List ℚ
deriving DecidableEq

/-- `AnimationEffect::getTotalDuration`: sum of the stage durations. -/
def getTotalDuration (e : AnimationEffect) : ℚ :=
  e.stagesDuration.foldl (· + ·) 0

/-- Loop body of `AnimationEffect::getStageProgress`: walk the stages
accumulating durations; in the first stage whose accumulated end time is
`≥ currentTime` return `clamp((currentTime - stageStart) / duration, 0, 1)`;
past the last stage return `1`.  A zero stage duration makes the division
ill-defined (`none`). -/
def stageProgressAux (currentTime : ℚ) : ℚ → List ℚ → Option ℚ
  | _, [] => some 1
  | accumulatedTime, d :: rest =>
    if currentTime ≤ accumulatedTime + d then
      if d = 0 then none
      else some (glmClamp ((currentTime - accumulatedTime) / d) 0 1)
    else stageProgressAux currentTime (accumulatedTime + d) rest

/-- `AnimationEffect::getStageProgress` (lines 903-915). -/
def getStageProgress (e : AnimationEffect) (currentTime : ℚ) : Option ℚ :=
  stageProgressAux currentTime 0 e.stagesDuration

/-- The three out-parameters of `AnimationEffect::getInterpolatedParams`. -/
structure CamParams where
  cameraPos : Vec3
  cameraRot : Quat
  fov : ℚ
deriving DecidableEq

/-- Loop body of `AnimationEffect::getInterpolatedParams`: find the first
stage whose end time is `≥ currentTime` and write the interpolated values;
if no stage matches, the loop ends and the out-parameters keep their
incoming values `cur`.  An out-of-range keyframe index is undefined
behaviour (`none`).  `slerpF` stands for the external `glm::slerp`. -/
def interpAux (slerpF : Quat → Quat → ℚ → Quat) (posNodes : List Vec3)
    (rotNodes : List Quat) (fovNodes : List ℚ) (currentTime progress : ℚ) :
    ℚ → ℕ → List ℚ → CamParams → Option CamParams
  | _, _, [], cur => some cur
  | accumulatedStageTime, i, d :: rest, cur =>
    if currentTime ≤ accumulatedStageTime + d then
      match posNodes[i]?, posNodes[i + 1]?, rotNodes[i]?, rotNodes[i + 1]?,
          fovNodes[i]?, fovNodes[i + 1]? with
      | some p0, some p1, some r0, some r1, some f0, some f1 =>
        some ⟨mixVec3 p0 p1 progress, slerpF r0 r1 progress, glmMix f0 f1 progress⟩
      | _, _, _, _, _, _ => none
    else interpAux slerpF posNodes rotNodes fovNodes currentTime progress
      (accumulatedStageTime + d) (i + 1) rest cur

/-- `AnimationEffect::getInterpolatedParams` (lines 917-937), as a function
of the incoming out-parameter values `cur`. -/
def getInterpolatedParams (slerpF : Quat → Quat → ℚ → Quat)
    (e : AnimationEffect) (currentTime : ℚ) (cur : CamParams) :
    Option CamParams :=
  (getStageProgress e currentTime).bind fun progress =>
    interpAux slerpF e.CameraPosNodes e.CameraRotNodes e.FovNodes
      currentTime progress 0 0 e.stagesDuration cur

/-- `PanoramaRenderer::ViewMode`. -/
inductive ViewMode
  | PERSPECTIVE
  | LITTLEPLANET
  | CRYSTALBALL
deriving DecidableEq

/-- `PanoramaRenderer::PanoAnimator`. -/
inductive PanoAnimator
  | NONE
  | ROTATE
  | SWIPE
  | SWIPE_ROTATE
deriving DecidableEq

/-- `PanoramaRenderer::SwitchMode`. -/
inductive SwitchMode
  | PANORAMAVIDEO
  | PANORAMAIMAGE
deriving DecidableEq

/-- The camera/animation state of `PanoramaRenderer` (src/main.cpp variant)
touched by `processInput`. -/
structure RState where
  viewOrientation : ViewMode
  panoAnimator : PanoAnimator
  panoMode : SwitchMode
  pitch : ℚ
  yaw : ℚ
  prevPitch : ℚ
  fov : ℚ
  animationTime : ℚ
  animationEffect : AnimationEffect
deriving DecidableEq

/-- The key states read by `processInput` in a frame. -/
structure Keys where
  w : Bool
  s : Bool
  a : Bool
  d : Bool
  k1 : Bool
  k2 : Bool
  k3 : Bool
  f1 : Bool
  f2 : Bool
  f3 : Bool
deriving DecidableEq

/-- The F1 preset (main.cpp lines 212-261): 6 keyframes, 5 stages.  The
orientation keyframes are built through the external `glm::radians` and
Euler-to-quaternion constructor, kept as parameters `radiansF` / `e2q`. -/
def rotateEffect (radiansF : ℚ → ℚ) (e2q : Vec3 → Quat) : AnimationEffect where
  CameraPosNodes := [⟨0, 0, 0⟩, ⟨0, 0, 0⟩, ⟨0, 0, 0⟩, ⟨0, 1/2, 0⟩, ⟨0, 1, 0⟩, ⟨0, 0, 0⟩]
  CameraRotNodes :=
    [e2q ⟨0, radiansF 0, 0⟩, e2q ⟨0, radiansF 180, 0⟩, e2q ⟨0, radiansF 360, 0⟩,
     e2q ⟨-(radiansF 45), radiansF 180, 0⟩, e2q ⟨-(radiansF 90), radiansF 360, 0⟩,
     e2q ⟨0, radiansF 0, 0⟩]
  FovNodes := [60, 60, 60, 90, 120, 60]
  stagesDuration := [4, 4, 1, 1, 1]

/-- The F2 preset (main.cpp lines 262-302): 4 keyframes, 3 stages. -/
def swipeEffect (radiansF : ℚ → ℚ) (e2q : Vec3 → Quat) : AnimationEffect where
  CameraPosNodes := [⟨0, 1, 0⟩, ⟨0, 0, 0⟩, ⟨0, -1, 0⟩, ⟨0, 0, 0⟩]
  CameraRotNodes :=
    [e2q ⟨-(radiansF 90), radiansF 0, 0⟩, e2q ⟨0, radiansF 180, 0⟩,
     e2q ⟨radiansF 90, radiansF 360, 0⟩, e2q ⟨0, radiansF 0, 0⟩]
  FovNodes := [120, 60, 120, 80]
  stagesDuration := [5, 2, 2]

/-- The F3 preset (main.cpp lines 304-349): 5 keyframes, 4 stages. -/
def swipeRotateEffect (radiansF : ℚ → ℚ) (e2q : Vec3 → Quat) : AnimationEffect where
  CameraPosNodes := [⟨0, -1, 0⟩, ⟨0, -1, 0⟩, ⟨0, 0, 0⟩, ⟨0, 1, 0⟩, ⟨0, 0, 0⟩]
  CameraRotNodes :=
    [e2q ⟨radiansF 90, radiansF 0, 0⟩, e2q ⟨radiansF 90, radiansF 0, 0⟩,
     e2q ⟨0, radiansF 180, 0⟩, e2q ⟨-(radiansF 90), radiansF 360, 0⟩,
     e2q ⟨0, radiansF 0, 0⟩]
  FovNodes := [120, 110, 60, 120, 60]
  stagesDuration := [3/2, 3, 2, 2]

/-- `PanoramaRenderer::processInput` (src/main.cpp lines 169-358): WASD
nudges, mode-select keys 1/2/3, preset keys F1/F2/F3 (image mode only),
then the pitch clamp applied only in interactive Perspective mode, and the
yaw wrap.  The synchronous export triggered by P changes no member state
and is modelled separately. -/
def processInput (radiansF : ℚ → ℚ) (e2q : Vec3 → Quat) (k : Keys)
    (s : RState) : RState :=
  let s := if k.w then { s with pitch := s.pitch + 1/2 } else s
  let s := if k.s then { s with pitch := s.pitch - 1/2 } else s
  let s := if k.a then { s with yaw := s.yaw - 1/2 } else s
  let s := if k.d then { s with yaw := s.yaw + 1/2 } else s
  let s := if k.k1 then
      { s with viewOrientation := .PERSPECTIVE, panoAnimator := .NONE,
               pitch := 0, prevPitch := 0, yaw := 0, fov := 60 }
    else s
  let s := if k.k2 then
      { s with viewOrientation := .LITTLEPLANET, panoAnimator := .NONE,
               pitch := 90, prevPitch := 90, yaw := 0, fov := 120 }
    else s
  let s := if k.k3 then
      { s with viewOrientation := .CRYSTALBALL, panoAnimator := .NONE,
               pitch := 0, prevPitch := 0, yaw := 0, fov := 85 }
    else s
  let s :=
    if s.panoMode = SwitchMode.PANORAMAIMAGE then
      if k.f1 then
        { s with animationTime := 0, panoAnimator := .ROTATE,
                 animationEffect := rotateEffect radiansF e2q }
      else if k.f2 then
        { s with animationTime := 0, panoAnimator := .SWIPE,
                 animationEffect := swipeEffect radiansF e2q }
      else if k.f3 then
        { s with animationTime := 0, panoAnimator := .SWIPE_ROTATE,
                 animationEffect := swipeRotateEffect radiansF e2q }
      else s
    else s
  let s :=
    if s.viewOrientation = ViewMode.PERSPECTIVE ∧ s.panoAnimator = PanoAnimator.NONE then
      { s with pitch := glmClamp s.pitch (-89) 89 }
    else s
  { s with yaw := glmMod s.yaw 360 }

/-- The src2 variant's animation effect payload, with the field layout
shown by the aggregate initializer at src2/PanoramaRenderer.cpp lines
218-231: position keyframes, pitch/yaw/fov keyframe values, stage
durations, and a loop flag. -/
structure AnimationEffect2 where
  CameraPosNodes : List Vec3
  PitchNodes : List ℚ
  YawNodes : List ℚ
  FovNodes : List ℚ
  stagesDuration : List ℚ
  loopAnim : Bool
deriving DecidableEq

/-- The camera/animation state of the src2 `PanoramaRenderer` variant. -/
structure RState2 where
  viewOrientation : ViewMode
  panoAnimator : PanoAnimator
  panoMode : SwitchMode
  pitch : ℚ
  yaw : ℚ
  prevPitch : ℚ
  fov : ℚ
  animationTime : ℚ
  animationEffect : AnimationEffect2
deriving DecidableEq

/-- The src2 F1 preset (src2/PanoramaRenderer.cpp lines 218-231). -/
def rotateEffect2 : AnimationEffect2 where
  CameraPosNodes := [⟨0, 0, 0⟩, ⟨0, 0, 0⟩, ⟨0, 1, 0⟩, ⟨0, 0, 0⟩]
  PitchNodes := [0, 0, 90, 0]
  YawNodes := [0, 360, 0, 0]
  FovNodes := [60, 60, 120, 60]
  stagesDuration := [10, 2, 3]
  loopAnim := false

/-- `PanoramaRenderer::processInput` of the src2 variant
(src2/PanoramaRenderer.cpp lines 178-247): same nudges and mode selects
(F2/F3 only reset the animation clock there), but the pitch clamp at lines
242-247 is applied whenever the view mode is Perspective, with no condition
on the animator. -/
def processInput2 (k : Keys) (s : RState2) : RState2 :=
  let s := if k.w then { s with pitch := s.pitch + 1/2 } else s
  let s := if k.s then { s with pitch := s.pitch - 1/2 } else s
  let s := if k.a then { s with yaw := s.yaw - 1/2 } else s
  let s := if k.d then { s with yaw := s.yaw + 1/2 } else s
  let s := if k.k1 then
      { s with viewOrientation := .PERSPECTIVE, panoAnimator := .NONE,
               pitch := 0, prevPitch := 0, yaw := 0, fov := 60 }
    else s
  let s := if k.k2 then
      { s with viewOrientation := .LITTLEPLANET, panoAnimator := .NONE,
               pitch := 90, prevPitch := 90, yaw := 0, fov := 120 }
    else s
  let s := if k.k3 then
      { s with viewOrientation := .CRYSTALBALL, panoAnimator := .NONE,
               pitch := 0, prevPitch := 0, yaw := 0, fov := 85 }
    else s
  let s :=
    if s.panoMode = SwitchMode.PANORAMAIMAGE then
      if k.f1 then
        { s with animationTime := 0, panoAnimator := .ROTATE,
                 animationEffect := rotateEffect2 }
      else if k.f2 then { s with animationTime := 0 }
      else if k.f3 then { s with animationTime := 0 }
      else s
    else s
  let s :=
    if s.viewOrientation = ViewMode.PERSPECTIVE then
      { s with pitch := glmClamp s.pitch (-89) 89 }
    else s
  { s with yaw := glmMod s.yaw 360 }

/-- A `Keys` record with every key released. -/
def noKeys : Keys := ⟨false, false, false, false, false, false, false, false, false, false⟩

/-- A `Keys` record with only W (pitch-up nudge) pressed. -/
def wKey : Keys := ⟨true, false, false, false, false, false, false, false, false, false⟩

/-- A `Keys` record with only the 1 / 2 / 3 mode-select key pressed. -/
def key1 : Keys := ⟨false, false, false, false, true, false, false, false, false, false⟩

/-- See `key1`. -/
def key2 : Keys := ⟨false, false, false, false, false, true, false, false, false, false⟩

/-- See `key1`. -/
def key3 : Keys := ⟨false, false, false, false, false, false, true, false, false, false⟩

/-- Outcome of `PanoramaRenderer::exportAnimationEffect` towards the video
sink: precondition rejection, sink-open failure, or the list of sample
times of the frames written. -/
inductive ExportOutcome
  | noActiveAnimation
  | sinkOpenFailed
  | exported (frameTimes : List ℚ)
deriving DecidableEq

/-- The export sampling loop `for (t = 0; t < totalTime; t += 1/fps)`
(main.cpp lines 811-841), collecting the sample time of each frame written
to the sink.  The loop only terminates for a positive step, which the
guard records. -/
def frameLoop (totalTime step : ℚ) (t : ℚ) : List ℚ :=
  if h : 0 < step ∧ t < totalTime then t :: frameLoop totalTime step (t + step)
  else []
termination_by (Int.ceil ((totalTime - t) / step)).toNat
decreasing_by
  obtain ⟨hs, ht⟩ := h
  have h1 : (0 : ℚ) < (totalTime - t) / step := div_pos (by linarith) hs
  have h2 : Int.ceil ((totalTime - (t + step)) / step) =
      Int.ceil ((totalTime - t) / step) - 1 := by
    have hstep : step ≠ 0 := ne_of_gt hs
    have harg : (totalTime - (t + step)) / step = (totalTime - t) / step - 1 := by
      field_simp
      ring
    rw [harg, Int.ceil_sub_one]
  have h3 : 1 ≤ Int.ceil ((totalTime - t) / step) := Int.ceil_pos.mpr h1
  omega

/-- Sample times of the frames `exportAnimationEffect` writes for a run of
total duration `totalTime` at `fps` frames per second. -/
def exportFrameTimes (totalTime fps : ℚ) : List ℚ :=
  frameLoop totalTime (1 / fps) 0

/-- `PanoramaRenderer::exportAnimationEffect` (main.cpp lines 796-842):
reject unless an image-mode animation is active, fail if the sink cannot
be opened, otherwise write one frame per loop iteration.  The method reads
but never writes the renderer state, so the state component is returned
unchanged on every path. -/
def exportAnimationEffect (sinkOpens : Bool) (fps : ℚ) (s : RState) :
    ExportOutcome × RState :=
  if s.panoMode ≠ SwitchMode.PANORAMAIMAGE ∨ s.panoAnimator = PanoAnimator.NONE then
    (.noActiveAnimation, s)
  else if !sinkOpens then (.sinkOpenFailed, s)
  else (.exported (exportFrameTimes (getTotalDuration s.animationEffect) fps), s)

/-- Value of `m_exporting` after `PanoramaRenderer::exportAnimationEffect`
returns: the method body (precondition reject at line 797, sink-open
failure at line 804, full export loop) contains no store to `m_exporting`
on any path. -/
def exportingAfterExportAnimationEffect (precondOk sinkOpens exporting : Bool) : Bool :=
  if !precondOk then exporting
  else if !sinkOpens then exporting
  else exporting

/-- Value of `m_exporting` after `PanoramaRenderer::exportAnimationEffectThread`
returns (main.cpp lines 688-794): the early `return`s on an incomplete
framebuffer (lines 730, 735) and on sink-open failure (line 742) leave the
flag untouched; only the fall-through end of the function executes
`m_exporting.store(false)` (line 793). -/
def exportingAfterExportThread (fboComplete sinkOpens exporting : Bool) : Bool :=
  if !fboComplete then exporting
  else if !sinkOpens then exporting
  else false

/-- `PanoramaRenderer::startExportAnimationEffect` (main.cpp lines 675-685)
followed by the full run of the launched background body: if `m_exporting`
is set the request is rejected; otherwise the flag is stored `true` and the
thread runs `exportAnimationEffect` (line 683).  Returns (request accepted?,
flag value after the background body terminates). -/
def startExportAnimationEffect (precondOk sinkOpens exporting : Bool) :
    Bool × Bool :=
  if exporting then (false, exporting)
  else (true, exportingAfterExportAnimationEffect precondOk sinkOpens true)

/-- Suffix test `filepath.size() >= ext.size() && filepath.compare(filepath.size()
- ext.size(), ext.size(), ext) == 0` used by the file classifiers. -/
def endsWith (filepath ext : List Char) : Bool :=
  decide (ext.length ≤ filepath.length) &&
    decide (filepath.drop (filepath.length - ext.length) = ext)

/-- The image extensions recognized by `PanoramaRenderer::isImageFile`. -/
def imageExtensions : List (List Char) :=
  [".jpg".data, ".jpeg".data, ".png".data, ".bmp".data, ".tga".data]

/-- The video extensions recognized by `PanoramaRenderer::isVideoFile`. -/
def videoExtensions : List (List Char) :=
  [".mp4".data, ".avi".data, ".mov".data, ".mkv".data]

/-- `PanoramaRenderer::isImageFile` (main.cpp lines 535-543). -/
def isImageFile (filepath : List Char) : Bool :=
  imageExtensions.any (endsWith filepath)

/-- `PanoramaRenderer::isVideoFile` (main.cpp lines 545-553). -/
def isVideoFile (filepath : List Char) : Bool :=
  videoExtensions.any (endsWith filepath)

/-- Concrete 2-keyframe, 1-stage animation effect used as evaluation
fixture: position (0,0,0) → (0,4,0), constant identity orientation,
fov 60 → 100, one 4-second stage. -/
def demoEffect : AnimationEffect :=
  ⟨[⟨0, 0, 0⟩, ⟨0, 4, 0⟩], [⟨1, 0, 0, 0⟩, ⟨1, 0, 0, 0⟩], [60, 100], [4]⟩

/-- Concrete incoming out-parameter values for `getInterpolatedParams`
evaluation fixtures. -/
def demoParams : CamParams := ⟨⟨0, 0, 0⟩, ⟨1, 0, 0, 0⟩, 60⟩

/-- Fixture state: image mode with the ROTATE animator active. -/
def imageAnimState : RState :=
  ⟨.PERSPECTIVE, .ROTATE, .PANORAMAIMAGE, 0, 0, 0, 60, 0, demoEffect⟩

/-- Fixture state: video mode (export precondition fails). -/
def videoState : RState :=
  ⟨.PERSPECTIVE, .ROTATE, .PANORAMAVIDEO, 0, 0, 0, 60, 0, demoEffect⟩

/-- Fixture state: interactive Perspective mode, pitch 0. -/
def perspState : RState :=
  ⟨.PERSPECTIVE, .NONE, .PANORAMAIMAGE, 0, 0, 0, 60, 0, demoEffect⟩

/-- Fixture state: LittlePlanet mode, pitch 0, no animator. -/
def littlePlanetState : RState :=
  ⟨.LITTLEPLANET, .NONE, .PANORAMAIMAGE, 0, 0, 0, 120, 0, demoEffect⟩

/-- Fixture state for the src2 variant: Perspective mode with the ROTATE
animator active and pitch driven to 150. -/
def src2AnimState : RState2 :=
  ⟨.PERSPECTIVE, .ROTATE, .PANORAMAIMAGE, 150, 0, 0, 60, 0, rotateEffect2⟩

/-! ## Helper lemmas -/

theorem hasDivisibleNode_iff (a b : ℚ) :
    hasDivisibleNode a b = true ↔
      ((∃ k : ℤ, min a b + flEps < 90 + 180 * k ∧ 90 + 180 * k < max a b - flEps) ∧
       ∀ k : ℤ, min a b + flEps ≠ 90 + 180 * k) := by
  unfold hasDivisibleNode
  simp only [decide_eq_true_eq]
  set lb := min a b + flEps with hlb
  set ub := max a b - flEps with hub
  constructor
  · rintro ⟨h1, h2⟩
    refine ⟨⟨Int.ceil ((lb - 90) / 180), by linarith, by linarith⟩, ?_⟩
    intro k hk
    have hdiv : (lb - 90) / 180 = (k : ℚ) := by
      rw [hk]; field_simp
    rw [hdiv, Int.ceil_intCast] at h1
    rw [hk] at h1
    linarith
  · rintro ⟨⟨k, hk1, hk2⟩, hne⟩
    have hle : (Int.ceil ((lb - 90) / 180) : ℚ) ≤ (k : ℚ) := by
      have h1 : (lb - 90) / 180 ≤ (k : ℚ) := by
        rw [div_le_iff₀ (by norm_num : (0:ℚ) < 180)]
        linarith
      exact_mod_cast Int.ceil_le.mpr h1
    have hge : lb ≤ 90 + (Int.ceil ((lb - 90) / 180) : ℚ) * 180 := by
      have h2 : (lb - 90) / 180 ≤ (Int.ceil ((lb - 90) / 180) : ℚ) := Int.le_ceil _
      have h3 := (div_le_iff₀ (by norm_num : (0:ℚ) < 180)).mp h2
      linarith
    have hne2 : lb ≠ 90 + (Int.ceil ((lb - 90) / 180) : ℚ) * 180 := by
      intro h
      exact hne _ (by rw [h]; ring)
    exact ⟨lt_of_le_of_ne hge hne2, by linarith⟩

theorem frameLoop_eq (T step : ℚ) (hs : 0 < step) (t : ℚ) :
    frameLoop T step t =
      (List.range (Int.ceil ((T - t) / step)).toNat).map
        (fun n : ℕ => t + (n : ℚ) * step) := by
  suffices H : ∀ N t, (Int.ceil ((T - t) / step)).toNat = N →
      frameLoop T step t =
        (List.range (Int.ceil ((T - t) / step)).toNat).map
          (fun n : ℕ => t + (n : ℚ) * step) from H _ t rfl
  intro N
  induction N with
  | zero =>
    intro t h0
    rw [frameLoop, h0]
    have hng : ¬ (0 < step ∧ t < T) := by
      rintro ⟨-, ht⟩
      have h1 : (0 : ℚ) < (T - t) / step := div_pos (by linarith) hs
      have h3 : 1 ≤ Int.ceil ((T - t) / step) := Int.ceil_pos.mpr h1
      omega
    rw [dif_neg hng]
    simp
  | succ k ih =>
    intro t hN
    have ht : t < T := by
      by_contra hge
      have h1 : (T - t) / step ≤ 0 :=
        div_nonpos_of_nonpos_of_nonneg (by linarith) (le_of_lt hs)
      have h2 : Int.ceil ((T - t) / step) ≤ 0 := by
        have h4 := Int.ceil_le.mpr (by exact_mod_cast h1 : (T - t) / step ≤ ((0 : ℤ) : ℚ))
        simpa using h4
      omega
    have hceil : Int.ceil ((T - (t + step)) / step) = Int.ceil ((T - t) / step) - 1 := by
      have hstep : step ≠ 0 := ne_of_gt hs
      have harg : (T - (t + step)) / step = (T - t) / step - 1 := by
        field_simp
        ring
      rw [harg, Int.ceil_sub_one]
    have hk : (Int.ceil ((T - (t + step)) / step)).toNat = k := by omega
    rw [frameLoop, dif_pos ⟨hs, ht⟩, ih (t + step) hk, hk, hN,
      List.range_succ_eq_map, List.map_cons, List.map_map]
    congr 1
    · norm_num
    · apply List.map_congr_left
      intro n hn
      simp only [Function.comp_apply]
      push_cast
      ring

theorem exportFrameTimes_eq (T fps : ℚ) (hfps : 0 < fps) :
    exportFrameTimes T fps =
      (List.range (Int.ceil (T * fps)).toNat).map (fun n : ℕ => (n : ℚ) / fps) := by
  have hstep : (0:ℚ) < 1 / fps := by positivity
  rw [exportFrameTimes, frameLoop_eq T (1 / fps) hstep 0]
  have harg : (T - 0) / (1 / fps) = T * fps := by
    field_simp
  rw [harg]
  apply List.map_congr_left
  intro n hn
  rw [zero_add, mul_one_div]

theorem stageProgressAux_bounds (t : ℚ) :
    ∀ (ds : List ℚ) (acc : ℚ), (∀ d ∈ ds, 0 < d) →
      ∃ p, stageProgressAux t acc ds = some p ∧ 0 ≤ p ∧ p ≤ 1 := by
  intro ds
  induction ds with
  | nil => exact fun acc _ => ⟨1, rfl, by norm_num⟩
  | cons d rest ih =>
    intro acc hall
    have hd : 0 < d := hall d (List.mem_cons_self d rest)
    rw [stageProgressAux]
    by_cases hle : t ≤ acc + d
    · rw [if_pos hle, if_neg (ne_of_gt hd)]
      refine ⟨glmClamp ((t - acc) / d) 0 1, rfl, ?_, ?_⟩
      · exact le_min (le_max_right _ _) (by norm_num)
      · exact min_le_right _ _
    · rw [if_neg hle]
      exact ih (acc + d) (fun x hx => hall x (List.mem_cons_of_mem d hx))

theorem interpAux_total (slerpF : Quat → Quat → ℚ → Quat)
    (posNodes : List Vec3) (rotNodes : List Quat) (fovNodes : List ℚ)
    (t progress : ℚ) (S : ℕ)
    (hp : posNodes.length = S + 1) (hr : rotNodes.length = S + 1)
    (hf : fovNodes.length = S + 1) :
    ∀ (ds : List ℚ) (acc : ℚ) (i : ℕ) (cur : CamParams), i + ds.length ≤ S →
      ∃ r, interpAux slerpF posNodes rotNodes fovNodes t progress acc i ds cur = some r := by
  intro ds
  induction ds with
  | nil => exact fun acc i cur _ => ⟨cur, rfl⟩
  | cons d rest ih =>
    intro acc i cur hlen
    rw [interpAux]
    by_cases hle : t ≤ acc + d
    · rw [if_pos hle]
      have hi0 : i < posNodes.length := by simp only [List.length_cons] at hlen; omega
      have hi1 : i + 1 < posNodes.length := by simp only [List.length_cons] at hlen; omega
      have hj0 : i < rotNodes.length := by omega
      have hj1 : i + 1 < rotNodes.length := by omega
      have hk0 : i < fovNodes.length := by omega
      have hk1 : i + 1 < fovNodes.length := by omega
      rw [List.getElem?_eq_getElem hi0, List.getElem?_eq_getElem hi1,
        List.getElem?_eq_getElem hj0, List.getElem?_eq_getElem hj1,
        List.getElem?_eq_getElem hk0, List.getElem?_eq_getElem hk1]
      exact ⟨_, rfl⟩
    · rw [if_neg hle]
      refine ih (acc + d) (i + 1) cur ?_
      simp only [List.length_cons] at hlen
      omega

theorem stepW_persp (radiansF : ℚ → ℚ) (e2q : Vec3 → Quat) (s : RState)
    (hv : s.viewOrientation = ViewMode.PERSPECTIVE)
    (ha : s.panoAnimator = PanoAnimator.NONE) :
    (processInput radiansF e2q wKey s).viewOrientation = ViewMode.PERSPECTIVE ∧
    (processInput radiansF e2q wKey s).panoAnimator = PanoAnimator.NONE ∧
    (processInput radiansF e2q wKey s).pitch = glmClamp (s.pitch + 1/2) (-89) 89 := by
  simp [processInput, wKey, hv, ha]

theorem stepW_little (radiansF : ℚ → ℚ) (e2q : Vec3 → Quat) (s : RState)
    (hv : s.viewOrientation = ViewMode.LITTLEPLANET) :
    (processInput radiansF e2q wKey s).viewOrientation = ViewMode.LITTLEPLANET ∧
    (processInput radiansF e2q wKey s).panoAnimator = s.panoAnimator ∧
    (processInput radiansF e2q wKey s).pitch = s.pitch + 1/2 := by
  simp [processInput, wKey, hv]

theorem iterW_persp (radiansF : ℚ → ℚ) (e2q : Vec3 → Quat) (n : ℕ) :
    ((processInput radiansF e2q wKey)^[n] perspState).viewOrientation = ViewMode.PERSPECTIVE ∧
    ((processInput radiansF e2q wKey)^[n] perspState).panoAnimator = PanoAnimator.NONE ∧
    ((processInput radiansF e2q wKey)^[n] perspState).pitch = min ((n : ℚ) / 2) 89 := by
  induction n with
  | zero =>
    refine ⟨rfl, rfl, ?_⟩
    show perspState.pitch = _
    rw [perspState]
    norm_num
  | succ m ih =>
    obtain ⟨hv, ha, hp⟩ := ih
    rw [Function.iterate_succ_apply']
    obtain ⟨hv2, ha2, hp2⟩ := stepW_persp radiansF e2q _ hv ha
    refine ⟨hv2, ha2, ?_⟩
    rw [hp2, hp]
    have h0 : (0 : ℚ) ≤ (m : ℚ) / 2 := by positivity
    have hmax : max (min ((m : ℚ) / 2) 89 + 1/2) (-89) = min ((m : ℚ) / 2) 89 + 1/2 := by
      apply max_eq_left
      have hmin0 : (0 : ℚ) ≤ min ((m : ℚ) / 2) 89 := le_min h0 (by norm_num)
      linarith
    rw [glmClamp, hmax]
    push_cast
    rcases le_total ((m : ℚ) / 2) 89 with h | h
    · rw [min_eq_left h]
      rcases le_total ((m : ℚ) / 2 + 1 / 2) 89 with h2 | h2
      · rw [min_eq_left h2, min_eq_left (by linarith : ((m : ℚ) + 1) / 2 ≤ 89)]
        ring
      · rw [min_eq_right h2, min_eq_right (by linarith : (89 : ℚ) ≤ ((m : ℚ) + 1) / 2)]
    · rw [min_eq_right h,
        min_eq_right (by norm_num : (89 : ℚ) ≤ 89 + 1 / 2),
        min_eq_right (by linarith : (89 : ℚ) ≤ ((m : ℚ) + 1) / 2)]

theorem iterW_little (radiansF : ℚ → ℚ) (e2q : Vec3 → Quat) (n : ℕ) :
    ((processInput radiansF e2q wKey)^[n] littlePlanetState).viewOrientation
        = ViewMode.LITTLEPLANET ∧
    ((processInput radiansF e2q wKey)^[n] littlePlanetState).pitch = (n : ℚ) / 2 := by
  induction n with
  | zero =>
    refine ⟨rfl, ?_⟩
    show littlePlanetState.pitch = _
    rw [littlePlanetState]
    norm_num
  | succ m ih =>
    obtain ⟨hv, hp⟩ := ih
    rw [Function.iterate_succ_apply']
    obtain ⟨hv2, _, hp2⟩ := stepW_little radiansF e2q _ hv
    refine ⟨hv2, ?_⟩
    rw [hp2, hp]
    push_cast
    ring

theorem endsWith_iff (filepath ext : List Char) :
    endsWith filepath ext = true ↔ ext <:+ filepath := by
  rw [endsWith, Bool.and_eq_true, decide_eq_true_eq, decide_eq_true_eq]
  constructor
  · rintro ⟨hlen, hdrop⟩
    exact List.suffix_iff_eq_drop.mpr hdrop.symm
  · intro h
    exact ⟨h.length_le, (List.suffix_iff_eq_drop.mp h).symm⟩

/-! ## Claim theorems -/

/-- C1: evaluation of the claim at a failing input.  For the 2-keyframe,
1-stage fixture (total duration 4) and any `slerp`, `getStageProgress`
does return the terminal progress 1 past the end, and sampling at the
total duration yields the last keyframe's position/fov; but sampling at
t = 5 > 4 returns the incoming out-parameter values unchanged — the loop
in `getInterpolatedParams` writes nothing once `currentTime` exceeds the
total duration — instead of holding the final keyframe's values as the
claim states. -/
theorem C1_interpolate_hold_bug (slerpF : Quat → Quat → ℚ → Quat) :
    getTotalDuration demoEffect = 4 ∧
    getStageProgress demoEffect 5 = some 1 ∧
    getInterpolatedParams slerpF demoEffect 5 demoParams = some demoParams ∧
    (getInterpolatedParams slerpF demoEffect 4 demoParams).map
        (fun r => (r.cameraPos, r.fov)) = some (⟨0, 4, 0⟩, 100) ∧
    (demoParams.cameraPos, demoParams.fov) ≠ (⟨0, 4, 0⟩, 100) := by
  refine ⟨by norm_num [getTotalDuration, demoEffect], ?_, ?_, ?_, by simp [demoParams]⟩
  · norm_num [getStageProgress, demoEffect, stageProgressAux]
  · norm_num [getInterpolatedParams, getStageProgress, demoEffect, stageProgressAux,
      interpAux, demoParams]
  · norm_num [getInterpolatedParams, getStageProgress, demoEffect, stageProgressAux,
      interpAux, demoParams, glmClamp, glmMix, mixVec3]

/-- C2: the export-in-progress flag is *not* cleared when the export
procedure terminates.  A first background export request is accepted and
the flag is set, but after the launched body (`exportAnimationEffect`,
line 683) runs to completion the flag is still `true`, so a later request
is rejected; and the `exportAnimationEffectThread` variant leaves the flag
set on both early failure exits (incomplete framebuffer, unopenable sink),
clearing it only on the successful completion path. -/
theorem C2_export_flag_not_cleared :
    startExportAnimationEffect true true false = (true, true) ∧
    (startExportAnimationEffect true true
        ((startExportAnimationEffect true true false).2)).1 = false ∧
    exportingAfterExportThread false true true = true ∧
    exportingAfterExportThread true false true = true ∧
    exportingAfterExportThread true true true = false := by
  decide

/-- C3 (counterexample): the claimed iff fails.  For the pitch pair
(90 − ε, 400) the open interval (min + ε, max − ε) = (90, 400 − ε)
contains 270 = 90 + 180·1, yet `hasDivisibleNode` returns false, because
its single candidate 90 + 180·⌈(lowerBound − 90)/180⌉ = 90 lands exactly
on the lower bound and the next candidate is never tested. -/
theorem C3_iff_counterexample :
    hasDivisibleNode (90 - flEps) 400 = false ∧
    min (90 - flEps) 400 + flEps < 90 + 180 * ((1 : ℤ) : ℚ) ∧
    (90 : ℚ) + 180 * ((1 : ℤ) : ℚ) < max (90 - flEps) 400 - flEps := by
  have hmin : min (90 - flEps) 400 = 90 - flEps := min_eq_left (by norm_num [flEps])
  have hmax : max (90 - flEps) 400 = 400 := max_eq_right (by norm_num [flEps])
  refine ⟨?_, ?_, ?_⟩
  · rw [← Bool.not_eq_true, hasDivisibleNode_iff]
    rintro ⟨-, hall⟩
    exact hall 0 (by rw [hmin]; push_cast; ring)
  · rw [hmin]; norm_num [flEps]
  · rw [hmax]; norm_num [flEps]

/-- C3 (amended): `hasDivisibleNode(a, b)` returns true iff the open
interval (min + ε, max − ε) contains a value of the form 90 + 180k *and*
the lower bound min + ε is not itself of that form (when it is, the code's
single candidate collapses onto the boundary and the function returns
false even if a further node lies inside).  The boundary-exclusion case
`hasDivisibleNode 90 (90 + 2δ) = false` holds for 0 ≤ δ below the
function's own ε, `hasDivisibleNode 89 91 = true`, and
`hasDivisibleNode x x = false` for every x. -/
theorem C3_hasDivisibleNode_characterization (δ : ℚ) (hδ0 : 0 ≤ δ) (hδ : δ < flEps) :
    (∀ a b : ℚ, hasDivisibleNode a b = true ↔
        ((∃ k : ℤ, min a b + flEps < 90 + 180 * k ∧ 90 + 180 * k < max a b - flEps) ∧
         ∀ k : ℤ, min a b + flEps ≠ 90 + 180 * k)) ∧
    hasDivisibleNode 89 91 = true ∧
    hasDivisibleNode 90 (90 + 2 * δ) = false ∧
    ∀ x : ℚ, hasDivisibleNode x x = false := by
  refine ⟨hasDivisibleNode_iff, ?_, ?_, ?_⟩
  · rw [hasDivisibleNode_iff]
    have hmin : min (89:ℚ) 91 = 89 := min_eq_left (by norm_num)
    have hmax : max (89:ℚ) 91 = 91 := max_eq_right (by norm_num)
    refine ⟨⟨0, by rw [hmin]; push_cast; norm_num [flEps],
        by rw [hmax]; push_cast; norm_num [flEps]⟩, ?_⟩
    intro k hk
    rw [hmin, flEps] at hk
    have h1 : (1509949440:ℚ) * (k:ℚ) = -8388607 := by linarith
    have h2 : (1509949440:ℤ) * k = -8388607 := by exact_mod_cast h1
    omega
  · rw [← Bool.not_eq_true, hasDivisibleNode_iff]
    have hmin : min (90:ℚ) (90 + 2 * δ) = 90 := min_eq_left (by linarith)
    have hmax : max (90:ℚ) (90 + 2 * δ) = 90 + 2 * δ := max_eq_right (by linarith)
    rintro ⟨⟨k, hk1, hk2⟩, -⟩
    rw [hmin] at hk1
    rw [hmax] at hk2
    linarith
  · intro x
    rw [← Bool.not_eq_true, hasDivisibleNode_iff]
    have heps : (0:ℚ) < flEps := by norm_num [flEps]
    rintro ⟨⟨k, hk1, hk2⟩, -⟩
    rw [min_self] at hk1
    rw [max_self] at hk2
    linarith

/-- Witness for C3: the amended theorem applied at δ = 0. -/
theorem C3_witness :
    (0:ℚ) ≤ 0 ∧ (0:ℚ) < flEps ∧ hasDivisibleNode 90 (90 + 2 * 0) = false :=
  ⟨le_rfl, by norm_num [flEps],
    (C3_hasDivisibleNode_characterization 0 le_rfl (by norm_num [flEps])).2.2.1⟩

/-- C4 (counterexample): in the src2 variant, `processInput` clamps the
pitch in Perspective mode even while a scripted animation is active
(PanoAnimator = ROTATE): from stored pitch 150 it yields 89, whereas the
claim says the clamp applies only when no animation is active. -/
theorem C4_src2_clamps_during_animation :
    src2AnimState.panoAnimator ≠ PanoAnimator.NONE ∧
    src2AnimState.viewOrientation = ViewMode.PERSPECTIVE ∧
    src2AnimState.pitch = 150 ∧
    (processInput2 noKeys src2AnimState).pitch = 89 := by
  refine ⟨by decide, rfl, rfl, ?_⟩
  simp [processInput2, noKeys, src2AnimState, glmClamp]
  norm_num

/-- C4 (amended): in the src/main.cpp variant, `processInput` clamps pitch
to [−89, 89] iff the view mode is Perspective and no scripted animation is
active, so driving pitch to 150 by W-nudges yields 89 interactively in
Perspective and an unclamped 150 in LittlePlanet; in the src2 variant the
clamp is applied iff the view mode is Perspective, regardless of the
animator state. -/
theorem C4_pitch_clamp_policy (radiansF : ℚ → ℚ) (e2q : Vec3 → Quat)
    (s : RState) (s2 : RState2) :
    (processInput radiansF e2q noKeys s).pitch =
      (if s.viewOrientation = ViewMode.PERSPECTIVE ∧ s.panoAnimator = PanoAnimator.NONE
       then glmClamp s.pitch (-89) 89 else s.pitch) ∧
    (processInput2 noKeys s2).pitch =
      (if s2.viewOrientation = ViewMode.PERSPECTIVE
       then glmClamp s2.pitch (-89) 89 else s2.pitch) ∧
    ((processInput radiansF e2q wKey)^[300] perspState).pitch = 89 ∧
    ((processInput radiansF e2q wKey)^[300] littlePlanetState).pitch = 150 := by
  refine ⟨?_, ?_, ?_, ?_⟩
  · by_cases h : s.viewOrientation = ViewMode.PERSPECTIVE ∧ s.panoAnimator = PanoAnimator.NONE
    · rw [if_pos h]
      simp [processInput, noKeys, h.1, h.2]
    · rw [if_neg h]
      simp only [processInput, noKeys]
      simp only [Bool.false_eq_true, if_false, ite_self]
      rw [if_neg h]
  · by_cases h : s2.viewOrientation = ViewMode.PERSPECTIVE
    · rw [if_pos h]
      simp [processInput2, noKeys, h]
    · rw [if_neg h]
      simp only [processInput2, noKeys]
      simp only [Bool.false_eq_true, if_false, ite_self]
      rw [if_neg h]
  · rw [(iterW_persp radiansF e2q 300).2.2]
    rw [min_eq_right (by norm_num : (89 : ℚ) ≤ (300 : ℕ) / 2)]
  · rw [(iterW_little radiansF e2q 300).2]
    norm_num

/-- C5: for every export run with fps > 0 from a state satisfying the
export preconditions, the sink receives exactly
⌈totalDuration · fps⌉ frames sampled at times 0, 1/fps, 2/fps, …, which
are strictly increasing and evenly spaced at 1/fps; for totalDuration 2
and fps 30 that is exactly 60 frames. -/
theorem C5_export_frame_times (s : RState) (fps : ℚ)
    (hmode : s.panoMode = SwitchMode.PANORAMAIMAGE)
    (hanim : s.panoAnimator ≠ PanoAnimator.NONE) (hfps : 0 < fps) :
    exportAnimationEffect true fps s =
      (ExportOutcome.exported
        ((List.range (Int.ceil (getTotalDuration s.animationEffect * fps)).toNat).map
          (fun n : ℕ => (n : ℚ) / fps)), s) ∧
    (exportFrameTimes (getTotalDuration s.animationEffect) fps).length =
      (Int.ceil (getTotalDuration s.animationEffect * fps)).toNat ∧
    List.Chain' (fun t1 t2 => t1 < t2 ∧ t2 - t1 = 1 / fps)
      (exportFrameTimes (getTotalDuration s.animationEffect) fps) ∧
    (exportFrameTimes 2 30).length = 60 := by
  refine ⟨?_, ?_, ?_, ?_⟩
  · rw [exportAnimationEffect,
      if_neg (not_or.mpr ⟨fun hne => hne hmode, hanim⟩)]
    simp only [Bool.not_true, Bool.false_eq_true, if_false]
    rw [exportFrameTimes_eq _ _ hfps]
  · rw [exportFrameTimes_eq _ _ hfps, List.length_map, List.length_range]
  · rw [exportFrameTimes_eq _ _ hfps, List.chain'_map]
    rcases hm : (Int.ceil (getTotalDuration s.animationEffect * fps)).toNat with _ | m
    · simp
    · rw [List.chain'_range_succ]
      intro i hi
      have hsub : ((i + 1 : ℕ) : ℚ) / fps - (i : ℚ) / fps = 1 / fps := by
        push_cast
        field_simp
      constructor
      · rw [← sub_pos, hsub]
        positivity
      · exact hsub
  · rw [exportFrameTimes_eq 2 30 (by norm_num), List.length_map, List.length_range]
    norm_num
    rfl

/-- Witness for C5: the theorem applied to the image-mode fixture state
with the ROTATE animator active, at fps = 30. -/
theorem C5_witness :
    imageAnimState.panoMode = SwitchMode.PANORAMAIMAGE ∧
    imageAnimState.panoAnimator ≠ PanoAnimator.NONE ∧
    (0:ℚ) < 30 ∧ (exportFrameTimes 2 30).length = 60 :=
  ⟨rfl, by decide, by norm_num,
    (C5_export_frame_times imageAnimState 30 rfl (by decide) (by norm_num)).2.2.2⟩

/-- C6: for pitch pairs (a, b) with a ≠ b and neither of the form
90 + 180k, `hasDivisibleNode` is independent of argument order (the
function sorts its arguments first, so this holds by symmetry of
min and max). -/
theorem C6_order_independence (a b : ℚ) (hab : a ≠ b)
    (ha : ∀ k : ℤ, a ≠ 90 + 180 * k) (hb : ∀ k : ℤ, b ≠ 90 + 180 * k) :
    hasDivisibleNode a b = hasDivisibleNode b a := by
  unfold hasDivisibleNode
  rw [min_comm b a, max_comm b a]

/-- Witness for C6: the theorem applied at (0, 1). -/
theorem C6_witness :
    ((0:ℚ) ≠ 1) ∧ hasDivisibleNode 0 1 = hasDivisibleNode 1 0 := by
  have ha : ∀ k : ℤ, (0:ℚ) ≠ 90 + 180 * k := by
    intro k h
    have h1 : (180:ℚ) * (k:ℚ) = -90 := by linarith
    have h2 : (180:ℤ) * k = -90 := by exact_mod_cast h1
    omega
  have hb : ∀ k : ℤ, (1:ℚ) ≠ 90 + 180 * k := by
    intro k h
    have h1 : (180:ℚ) * (k:ℚ) = -89 := by linarith
    have h2 : (180:ℤ) * k = -89 := by exact_mod_cast h1
    omega
  exact ⟨by norm_num, C6_order_independence 0 1 (by norm_num) ha hb⟩

/-- C7: selecting LittlePlanet via key 2 always yields pitch = 90,
previousPitch = 90, yaw = 0, fov = 120 and animator NONE regardless of the
prior state; key 1 (Perspective) yields (0, 0, 0, fov 60) and key 3
(CrystalBall) yields (0, 0, 0, fov 85), likewise with animator NONE. -/
theorem C7_mode_switch_resets (radiansF : ℚ → ℚ) (e2q : Vec3 → Quat) (s : RState) :
    ((processInput radiansF e2q key2 s).viewOrientation = ViewMode.LITTLEPLANET ∧
     (processInput radiansF e2q key2 s).panoAnimator = PanoAnimator.NONE ∧
     (processInput radiansF e2q key2 s).pitch = 90 ∧
     (processInput radiansF e2q key2 s).prevPitch = 90 ∧
     (processInput radiansF e2q key2 s).yaw = 0 ∧
     (processInput radiansF e2q key2 s).fov = 120) ∧
    ((processInput radiansF e2q key1 s).viewOrientation = ViewMode.PERSPECTIVE ∧
     (processInput radiansF e2q key1 s).panoAnimator = PanoAnimator.NONE ∧
     (processInput radiansF e2q key1 s).pitch = 0 ∧
     (processInput radiansF e2q key1 s).prevPitch = 0 ∧
     (processInput radiansF e2q key1 s).yaw = 0 ∧
     (processInput radiansF e2q key1 s).fov = 60) ∧
    ((processInput radiansF e2q key3 s).viewOrientation = ViewMode.CRYSTALBALL ∧
     (processInput radiansF e2q key3 s).panoAnimator = PanoAnimator.NONE ∧
     (processInput radiansF e2q key3 s).pitch = 0 ∧
     (processInput radiansF e2q key3 s).prevPitch = 0 ∧
     (processInput radiansF e2q key3 s).yaw = 0 ∧
     (processInput radiansF e2q key3 s).fov = 85) := by
  refine ⟨?_, ?_, ?_⟩ <;>
    simp [processInput, key1, key2, key3, glmClamp, glmMod]

/-- C8: if export is requested while the source is not an image or while
the animator is NONE, `exportAnimationEffect` rejects the request before
opening the sink: no frame is written and the renderer state is returned
unchanged. -/
theorem C8_export_precondition (sinkOpens : Bool) (fps : ℚ) (s : RState)
    (h : s.panoMode ≠ SwitchMode.PANORAMAIMAGE ∨ s.panoAnimator = PanoAnimator.NONE) :
    exportAnimationEffect sinkOpens fps s = (ExportOutcome.noActiveAnimation, s) := by
  rw [exportAnimationEffect, if_pos h]

/-- Witness for C8: the theorem applied to the video-mode fixture state. -/
theorem C8_witness :
    (videoState.panoMode ≠ SwitchMode.PANORAMAIMAGE ∨
      videoState.panoAnimator = PanoAnimator.NONE) ∧
    exportAnimationEffect true 30 videoState = (ExportOutcome.noActiveAnimation, videoState) :=
  ⟨Or.inl (by decide), C8_export_precondition true 30 videoState (Or.inl (by decide))⟩

/-- C9: under the keyframe-length invariant (all three keyframe arrays one
longer than the stage array, at least two keyframes) with strictly positive
stage durations, `getStageProgress` succeeds with a value in [0, 1] (in
particular every division it performs has a nonzero divisor) and
`getInterpolatedParams` succeeds (every keyframe index i and i + 1 it
accesses is within the bounds of the three keyframe arrays), for every
sample time and incoming out-parameter values. -/
theorem C9_sampling_safety (slerpF : Quat → Quat → ℚ → Quat) (e : AnimationEffect)
    (hp : e.CameraPosNodes.length = e.stagesDuration.length + 1)
    (hr : e.CameraRotNodes.length = e.stagesDuration.length + 1)
    (hf : e.FovNodes.length = e.stagesDuration.length + 1)
    (hN : 2 ≤ e.CameraPosNodes.length)
    (hdur : ∀ d ∈ e.stagesDuration, 0 < d)
    (t : ℚ) (cur : CamParams) :
    (∃ p, getStageProgress e t = some p ∧ 0 ≤ p ∧ p ≤ 1) ∧
    ∃ r, getInterpolatedParams slerpF e t cur = some r := by
  obtain ⟨p, hsp, hp0, hp1⟩ := stageProgressAux_bounds t e.stagesDuration 0 hdur
  have hsp2 : getStageProgress e t = some p := hsp
  refine ⟨⟨p, hsp2, hp0, hp1⟩, ?_⟩
  rw [getInterpolatedParams, hsp2, Option.some_bind]
  exact interpAux_total slerpF _ _ _ t p e.stagesDuration.length hp hr hf
    e.stagesDuration 0 0 cur (by omega)

/-- Witness for C9: the theorem applied to the 2-keyframe fixture effect,
componentwise quaternion interpolation, sample time 1. -/
theorem C9_witness :
    demoEffect.CameraPosNodes.length = demoEffect.stagesDuration.length + 1 ∧
    2 ≤ demoEffect.CameraPosNodes.length ∧
    (∀ d ∈ demoEffect.stagesDuration, 0 < d) ∧
    ((∃ p, getStageProgress demoEffect 1 = some p ∧ 0 ≤ p ∧ p ≤ 1) ∧
     ∃ r, getInterpolatedParams lerpQuat demoEffect 1 demoParams = some r) := by
  have hdur : ∀ d ∈ demoEffect.stagesDuration, 0 < d := by
    intro d hd
    simp only [demoEffect, List.mem_singleton] at hd
    rw [hd]
    norm_num
  exact ⟨rfl, by norm_num [demoEffect], hdur,
    C9_sampling_safety lerpQuat demoEffect rfl rfl rfl (by norm_num [demoEffect])
      hdur 1 demoParams⟩

/-- C10: no filepath is classified both as an image and as a video: the
recognized image and video extension suffixes are mutually exclusive, so
source classification at load time is unambiguous. -/
theorem C10_classification_unambiguous (filepath : List Char) :
    (isImageFile filepath && isVideoFile filepath) = false := by
  cases himg : isImageFile filepath
  · simp
  · rw [Bool.true_and, ← Bool.not_eq_true]
    intro hvid
    rw [isImageFile, List.any_eq_true] at himg
    rw [isVideoFile, List.any_eq_true] at hvid
    obtain ⟨e1, he1, hs1⟩ := himg
    obtain ⟨e2, he2, hs2⟩ := hvid
    have hsuf1 : e1 <:+ filepath := (endsWith_iff filepath e1).mp hs1
    have hsuf2 : e2 <:+ filepath := (endsWith_iff filepath e2).mp hs2
    have htot := List.suffix_or_suffix_of_suffix hsuf1 hsuf2
    rw [imageExtensions] at he1
    rw [videoExtensions] at he2
    fin_cases he1 <;> fin_cases he2 <;> revert htot <;> decide

end PanoViewer
